import Mathlib

/-!
Verification of the web-summarizer orchestration pipeline:
a shallow embedding of the pure logic of `helpers.py`, `youtube.py`,
`web_content.py`, `llm.py` and `routes.py`, with external effects
(filesystem, HTTP, transcript API, LLM client, markdown renderer)
made explicit as state and outcome parameters.
-/

namespace WebSummarizer

/-! ## Ephemeral result store (`helpers.py`) -/

/-- The JSON payload written by `store_summary_data` in `routes.py`:
`original_url`, `summary_html`, `summary_markdown`. -/
structure SummaryData where
  original_url : List Char
  summary_html : List Char
  summary_markdown : List Char
deriving DecidableEq

/-- Content of a temp file `web_summarizer_<id>.json`: either a record that
`json.load` parses back, or corrupt bytes on which `json.load` raises. -/
inductive FileContent where
  | good (d : SummaryData)
  | corrupt
deriving DecidableEq

/-- The temp directory, as a finite map from summary id to file content. -/
abbrev TempDir := List (List Char × FileContent)

/-- Model of `os.path.exists` plus reading the file: first (only) entry for the id. -/
def fileLookup (sid : List Char) : TempDir → Option FileContent
  | [] => none
  | (k, v) :: rest => if k = sid then some v else fileLookup sid rest

/-- Model of `os.remove`: delete the file for the id. -/
def fileRemove (sid : List Char) : TempDir → TempDir
  | [] => []
  | (k, v) :: rest =>
      if k = sid then fileRemove sid rest else (k, v) :: fileRemove sid rest

/-- Python exceptions that escape `retrieve_summary_data`.  `helpers.py` calls
`logging.error` in its `except` handler but never imports `logging`, so the
handler itself raises `NameError`. -/
inductive PyError where
  | nameErrorLoggingUndefined
deriving DecidableEq

/-- Embedding of `store_summary_data(summary_data)`: writes the payload to the temp file
named by the freshly generated uuid and returns that id.  The `uuid.uuid4()`
draw is made explicit as the `summary_id` argument; `open(..., 'w')` replaces
any existing file of that name. -/
def store_summary_data (summary_data : SummaryData) (summary_id : List Char)
    (dir : TempDir) : List Char × TempDir :=
  (summary_id, (summary_id, FileContent.good summary_data) :: fileRemove summary_id dir)

/-- Embedding of `retrieve_summary_data(summary_id)`: if the file does not exist, `None`;
if it parses, delete it and return the data; if `json.load` raises, the
`except` handler evaluates `logging.error` — `logging` is not imported, so a
`NameError` propagates before the cleanup `os.remove` is reached. -/
def retrieve_summary_data (summary_id : List Char) (dir : TempDir) :
    Except PyError (Option SummaryData) × TempDir :=
  match fileLookup summary_id dir with
  | none => (Except.ok none, dir)
  | some (FileContent.good d) => (Except.ok (some d), fileRemove summary_id dir)
  | some FileContent.corrupt => (Except.error PyError.nameErrorLoggingUndefined, dir)

theorem fileLookup_fileRemove_self (sid : List Char) (dir : TempDir) :
    fileLookup sid (fileRemove sid dir) = none := by
  induction dir with
  | nil => simp [fileRemove, fileLookup]
  | cons hd tl ih =>
      by_cases h : hd.1 = sid
      · simpa [fileRemove, h] using ih
      · simpa [fileRemove, fileLookup, h] using ih

theorem fileRemove_idem (sid : List Char) (dir : TempDir) :
    fileRemove sid (fileRemove sid dir) = fileRemove sid dir := by
  induction dir with
  | nil => simp [fileRemove]
  | cons hd tl ih =>
      by_cases h : hd.1 = sid
      · simpa [fileRemove, h] using ih
      · simpa [fileRemove, h] using ih

/-- C1: round-trip of the ephemeral store.  A `put` followed by a `take` with
the returned token yields exactly the stored payload; the `take` deletes the
backing record, so a second `take` returns `None` and leaves the directory
unchanged — hence every subsequent `take` with the same token returns `None`
as well. -/
theorem c1_put_take_roundtrip (d : SummaryData) (sid : List Char) (dir : TempDir) :
    (retrieve_summary_data (store_summary_data d sid dir).1
        (store_summary_data d sid dir).2).1 = Except.ok (some d) ∧
    (retrieve_summary_data (store_summary_data d sid dir).1
        (retrieve_summary_data (store_summary_data d sid dir).1
          (store_summary_data d sid dir).2).2).1 = Except.ok none ∧
    (retrieve_summary_data (store_summary_data d sid dir).1
        (retrieve_summary_data (store_summary_data d sid dir).1
          (store_summary_data d sid dir).2).2).2 =
      (retrieve_summary_data (store_summary_data d sid dir).1
        (store_summary_data d sid dir).2).2 := by
  refine ⟨?_, ?_, ?_⟩ <;>
    simp [store_summary_data, retrieve_summary_data, fileLookup,
      fileRemove_idem, fileLookup_fileRemove_self]

/-- C5: evaluation of `retrieve_summary_data` on a token whose backing file is
corrupt.  Contrary to the spec, the call raises (`NameError`, since
`helpers.py` uses `logging.error` without importing `logging`) and the corrupt
file is NOT removed: cleanup is never reached. -/
theorem c5_corrupt_payload_raises :
    retrieve_summary_data ('t' :: []) ((('t' :: []), FileContent.corrupt) :: []) =
      (Except.error PyError.nameErrorLoggingUndefined,
        ((('t' :: []), FileContent.corrupt) :: [])) := by
  rfl

/-! ## URL classifier (`youtube.py`, `is_youtube_url`) -/

/-- The character class `[a-zA-Z0-9_-]` of the video-id capture groups. -/
def idChar (c : Char) : Bool :=
  (decide ('a' ≤ c) && decide (c ≤ 'z')) || (decide ('A' ≤ c) && decide (c ≤ 'Z')) ||
    (decide ('0' ≤ c) && decide (c ≤ '9')) || c == '_' || c == '-'

/-- Model of the regex repetition of the id class: grab exactly `n` id characters from the
front of `s`, failing if a non-id character (or the end) comes first. -/
def grabId : Nat → List Char → Option (List Char)
  | 0, _ => some []
  | _ + 1, [] => none
  | n + 1, c :: rest =>
      if idChar c then (grabId n rest).map (fun id => c :: id) else none

/-- Test that `p` matches at the head of `s` (literal part of a pattern). -/
def litMatch : List Char → List Char → Bool
  | [], _ => true
  | _ :: _, [] => false
  | p :: ps, s :: ss => p == s && litMatch ps ss

/-- Try one regex core at the current position: the literal core followed by
an 11-character id capture. -/
def captureAt (core : List Char) (s : List Char) : Option (List Char) :=
  if litMatch core s then grabId 11 (s.drop core.length) else none

/-- Model of `re.search` for one of the module's patterns, specialised to its shape.
Each pattern is `(?:https?://)?(?:www\.)?CORE([a-zA-Z0-9_-]{11})` with all
prefixes optional, so the string matches iff the literal core occurs somewhere
followed by at least 11 id characters, and the leftmost regex match captures
the 11 characters after the first such occurrence (no prefix literal contains
the byte `y` that every core starts with, so an optional prefix can never
cover an earlier core occurrence). -/
def reSearch (core : List Char) : List Char → Option (List Char)
  | [] => none
  | c :: rest =>
      match captureAt core (c :: rest) with
      | some id => some id
      | none => reSearch core rest

/-- Literal core of the standard watch-URL pattern. -/
def watchCore : List Char := "youtube.com/watch?v=".toList

/-- Literal core of the shortened `youtu.be` pattern. -/
def shortCore : List Char := "youtu.be/".toList

/-- Literal core of the embed-URL pattern. -/
def embedCore : List Char := "youtube.com/embed/".toList

/-- Literal core of the `/v/` pattern. -/
def vCore : List Char := "youtube.com/v/".toList

/-- Embedding of `is_youtube_url(url)`: try the four patterns in order, returning the first
capture, else `None`. -/
def is_youtube_url (url : List Char) : Option (List Char) :=
  match reSearch watchCore url with
  | some id => some id
  | none =>
      match reSearch shortCore url with
      | some id => some id
      | none =>
          match reSearch embedCore url with
          | some id => some id
          | none => reSearch vCore url

theorem grabId_spec (n : Nat) (s id : List Char) (h : grabId n s = some id) :
    id.length = n ∧ ∀ c ∈ id, idChar c = true := by
  induction n generalizing s id with
  | zero =>
      simp [grabId] at h
      subst h
      simp
  | succ n ih =>
      match s with
      | [] => simp [grabId] at h
      | c :: rest =>
          by_cases hc : idChar c
          · simp [grabId, hc] at h
            obtain ⟨id0, hid0, rfl⟩ := h
            obtain ⟨hl, hall⟩ := ih rest id0 hid0
            refine ⟨by simp [hl], ?_⟩
            intro x hx
            rcases List.mem_cons.mp hx with rfl | hx
            · exact hc
            · exact hall x hx
          · simp [grabId, hc] at h

theorem captureAt_spec (core s id : List Char) (h : captureAt core s = some id) :
    id.length = 11 ∧ ∀ c ∈ id, idChar c = true := by
  unfold captureAt at h
  by_cases hm : litMatch core s
  · exact grabId_spec 11 (s.drop core.length) id (by simpa [hm] using h)
  · simp [hm] at h

theorem reSearch_spec (core s id : List Char) (h : reSearch core s = some id) :
    id.length = 11 ∧ ∀ c ∈ id, idChar c = true := by
  induction s with
  | nil => simp [reSearch] at h
  | cons c rest ih =>
      unfold reSearch at h
      cases hcap : captureAt core (c :: rest) with
      | some id0 =>
          rw [hcap] at h
          cases h
          exact captureAt_spec core (c :: rest) id hcap
      | none =>
          rw [hcap] at h
          exact ih h

/-- C9: whenever `is_youtube_url` returns a video id, that id has exactly 11
characters, each an ASCII letter, digit, hyphen or underscore. -/
theorem c9_video_id_shape (url id : List Char) (h : is_youtube_url url = some id) :
    id.length = 11 ∧ ∀ c ∈ id, idChar c = true := by
  unfold is_youtube_url at h
  cases h1 : reSearch watchCore url with
  | some id0 =>
      rw [h1] at h; cases h
      exact reSearch_spec _ _ _ h1
  | none =>
      rw [h1] at h
      cases h2 : reSearch shortCore url with
      | some id0 =>
          rw [h2] at h; cases h
          exact reSearch_spec _ _ _ h2
      | none =>
          rw [h2] at h
          cases h3 : reSearch embedCore url with
          | some id0 =>
              rw [h3] at h; cases h
              exact reSearch_spec _ _ _ h3
          | none =>
              rw [h3] at h
              exact reSearch_spec _ _ _ h

theorem litMatch_append_self (p s : List Char) : litMatch p (p ++ s) = true := by
  induction p with
  | nil => simp [litMatch]
  | cons c rest ih => simp [litMatch, ih]

theorem litMatch_false_of_take (p t s : List Char)
    (h : litMatch (p.take t.length) t = false) : litMatch p (t ++ s) = false := by
  induction t generalizing p with
  | nil => simp [litMatch] at h
  | cons c ts ih =>
      match p with
      | [] => simp [litMatch] at h
      | x :: xs =>
          simp only [List.length_cons, List.take_succ_cons, litMatch] at h
          rcases Bool.and_eq_false_iff.mp h with hx | hrest
          · simp [litMatch, hx]
          · simp [litMatch, ih xs hrest]

theorem captureAt_none_of_litMatch (core s : List Char) (h : litMatch core s = false) :
    captureAt core s = none := by
  simp [captureAt, h]

/-- Skip a concrete junk segment of the input: if the core (restricted to the
remaining junk length) fails to match at every junk position, the search on
`junk ++ s` equals the search on `s`.  For concrete `junk` and `core` the
hypothesis is decidable. -/
theorem reSearch_skip_junk (core junk s : List Char)
    (h : ∀ i, i < junk.length → litMatch (core.take (junk.length - i)) (junk.drop i) = false) :
    reSearch core (junk ++ s) = reSearch core s := by
  induction junk with
  | nil => simp
  | cons c rest ih =>
      have h0 : litMatch (core.take (c :: rest).length) (c :: rest) = false := by
        simpa using h 0 (by simp)
      have hcap : captureAt core ((c :: rest) ++ s) = none :=
        captureAt_none_of_litMatch _ _ (litMatch_false_of_take _ _ _ h0)
      have hrest : ∀ i, i < rest.length →
          litMatch (core.take (rest.length - i)) (rest.drop i) = false := by
        intro i hi
        simpa [Nat.succ_sub_succ] using h (i + 1) (by simpa using Nat.succ_lt_succ hi)
      rw [List.cons_append] at hcap
      rw [List.cons_append]
      simp only [reSearch, hcap]
      exact ih hrest

theorem litMatch_all_idChar (p s : List Char) (h : litMatch p s = true)
    (hs : ∀ c ∈ s, idChar c = true) : ∀ c ∈ p, idChar c = true := by
  induction p generalizing s with
  | nil => simp
  | cons x xs ih =>
      match s with
      | [] => simp [litMatch] at h
      | c :: ss =>
          simp only [litMatch, Bool.and_eq_true, beq_iff_eq] at h
          intro y hy
          rcases List.mem_cons.mp hy with rfl | hy
          · exact h.1 ▸ hs c (by simp)
          · exact ih ss h.2 (fun d hd => hs d (by simp [hd])) y hy

/-- On a tail consisting only of id characters, no core containing a
non-id character (every core contains a dot) can match anywhere. -/
theorem reSearch_none_of_idChar (core s : List Char) (bad : Char)
    (hbad : bad ∈ core) (hbadid : idChar bad = false)
    (hs : ∀ c ∈ s, idChar c = true) : reSearch core s = none := by
  induction s with
  | nil => simp [reSearch]
  | cons c rest ih =>
      have hcap : captureAt core (c :: rest) = none := by
        apply captureAt_none_of_litMatch
        by_contra hne
        have hm : litMatch core (c :: rest) = true := by
          cases hlm : litMatch core (c :: rest)
          · exact absurd hlm hne
          · rfl
        have := litMatch_all_idChar core (c :: rest) hm hs bad hbad
        rw [hbadid] at this
        exact Bool.false_ne_true this
      rw [reSearch, hcap]
      exact ih (fun d hd => hs d (by simp [hd]))

theorem grabId_exact (n : Nat) (id : List Char) (hlen : id.length = n)
    (hall : ∀ c ∈ id, idChar c = true) : grabId n id = some id := by
  induction id generalizing n with
  | nil => simp at hlen; simp [← hlen, grabId]
  | cons c rest ih =>
      subst hlen
      have hc : idChar c = true := hall c (by simp)
      have hrest := ih rest.length rfl (fun d hd => hall d (by simp [hd]))
      simp [List.length_cons, grabId, hc, hrest]

/-- A successful hit: the core at the head of the remaining input, followed by
exactly an 11-character id, captures that id. -/
theorem reSearch_hit (c0 : Char) (core' id : List Char) (hlen : id.length = 11)
    (hall : ∀ c ∈ id, idChar c = true) :
    reSearch (c0 :: core') ((c0 :: core') ++ id) = some id := by
  have hm : litMatch (c0 :: core') ((c0 :: core') ++ id) = true :=
    litMatch_append_self _ _
  have hdrop : ((c0 :: core') ++ id).drop (c0 :: core').length = id := by
    simp
  have hcap : captureAt (c0 :: core') ((c0 :: core') ++ id) = some id := by
    unfold captureAt
    rw [hm]
    simp [hdrop, grabId_exact 11 id hlen hall]
  rw [List.cons_append] at hcap
  rw [List.cons_append]
  simp only [reSearch, hcap]

theorem reSearch_junk_then_id_none (core junk id : List Char) (bad : Char)
    (hj : ∀ i, i < junk.length →
      litMatch (core.take (junk.length - i)) (junk.drop i) = false)
    (hbad : bad ∈ core) (hbadid : idChar bad = false)
    (hall : ∀ c ∈ id, idChar c = true) :
    reSearch core (junk ++ id) = none := by
  rw [reSearch_skip_junk _ _ _ hj]
  exact reSearch_none_of_idChar _ _ bad hbad hbadid hall

theorem reSearch_junk_then_hit (c0 : Char) (junk core' id : List Char)
    (hj : ∀ i, i < junk.length →
      litMatch ((c0 :: core').take (junk.length - i)) (junk.drop i) = false)
    (hlen : id.length = 11) (hall : ∀ c ∈ id, idChar c = true) :
    reSearch (c0 :: core') (junk ++ ((c0 :: core') ++ id)) = some id := by
  rw [reSearch_skip_junk _ _ _ hj]
  exact reSearch_hit _ _ _ hlen hall

/-- C2 (amended): for each of the four recognized URL shapes followed by an
11-character id and nothing else, `is_youtube_url` returns exactly that id.
(The unamended claim — every other URL yields `None` — fails, see the
counterexample: the patterns match anywhere in the string and put no boundary
after the 11-character capture.) -/
theorem c2_recognized_shapes_extract_id (id : List Char) (hlen : id.length = 11)
    (hall : ∀ c ∈ id, idChar c = true) :
    is_youtube_url ("https://www.youtube.com/watch?v=".toList ++ id) = some id ∧
    is_youtube_url ("https://youtu.be/".toList ++ id) = some id ∧
    is_youtube_url ("https://www.youtube.com/embed/".toList ++ id) = some id ∧
    is_youtube_url ("https://www.youtube.com/v/".toList ++ id) = some id := by
  refine ⟨?_, ?_, ?_, ?_⟩
  · -- watch URL: the first pattern hits.
    have hw : reSearch watchCore ("https://www.youtube.com/watch?v=".toList ++ id) = some id := by
      rw [show "https://www.youtube.com/watch?v=".toList =
            "https://www.".toList ++ watchCore from by decide, List.append_assoc,
          show watchCore = 'y' :: "outube.com/watch?v=".toList from by decide]
      exact reSearch_junk_then_hit _ _ _ _ (by decide) hlen hall
    unfold is_youtube_url
    rw [hw]
  · -- youtu.be URL: the watch pattern fails everywhere, the second hits.
    have h1 : reSearch watchCore ("https://youtu.be/".toList ++ id) = none :=
      reSearch_junk_then_id_none _ _ _ '.' (by decide) (by decide) (by decide) hall
    have h2 : reSearch shortCore ("https://youtu.be/".toList ++ id) = some id := by
      rw [show "https://youtu.be/".toList = "https://".toList ++ shortCore from by decide,
          List.append_assoc,
          show shortCore = 'y' :: "outu.be/".toList from by decide]
      exact reSearch_junk_then_hit _ _ _ _ (by decide) hlen hall
    unfold is_youtube_url
    rw [h1, h2]
  · -- embed URL: watch and youtu.be patterns fail, the third hits.
    have h1 : reSearch watchCore ("https://www.youtube.com/embed/".toList ++ id) = none :=
      reSearch_junk_then_id_none _ _ _ '.' (by decide) (by decide) (by decide) hall
    have h2 : reSearch shortCore ("https://www.youtube.com/embed/".toList ++ id) = none :=
      reSearch_junk_then_id_none _ _ _ '.' (by decide) (by decide) (by decide) hall
    have h3 : reSearch embedCore ("https://www.youtube.com/embed/".toList ++ id) = some id := by
      rw [show "https://www.youtube.com/embed/".toList =
            "https://www.".toList ++ embedCore from by decide, List.append_assoc,
          show embedCore = 'y' :: "outube.com/embed/".toList from by decide]
      exact reSearch_junk_then_hit _ _ _ _ (by decide) hlen hall
    unfold is_youtube_url
    rw [h1, h2, h3]
  · -- bare /v/ URL: the first three patterns fail, the fourth hits.
    have h1 : reSearch watchCore ("https://www.youtube.com/v/".toList ++ id) = none :=
      reSearch_junk_then_id_none _ _ _ '.' (by decide) (by decide) (by decide) hall
    have h2 : reSearch shortCore ("https://www.youtube.com/v/".toList ++ id) = none :=
      reSearch_junk_then_id_none _ _ _ '.' (by decide) (by decide) (by decide) hall
    have h3 : reSearch embedCore ("https://www.youtube.com/v/".toList ++ id) = none :=
      reSearch_junk_then_id_none _ _ _ '.' (by decide) (by decide) (by decide) hall
    have h4 : reSearch vCore ("https://www.youtube.com/v/".toList ++ id) = some id := by
      rw [show "https://www.youtube.com/v/".toList =
            "https://www.".toList ++ vCore from by decide, List.append_assoc,
          show vCore = 'y' :: "outube.com/v/".toList from by decide]
      exact reSearch_junk_then_hit _ _ _ _ (by decide) hlen hall
    unfold is_youtube_url
    rw [h1, h2, h3, h4]

/-- Witness for C2 at a concrete id. -/
theorem c2_recognized_shapes_extract_id_witness :
    is_youtube_url ("https://www.youtube.com/watch?v=".toList ++ "dQw4w9WgXcQ".toList) =
      some "dQw4w9WgXcQ".toList :=
  (c2_recognized_shapes_extract_id "dQw4w9WgXcQ".toList (by decide) (by decide)).1

/-- C2 counterexample: a watch URL whose id-run has 12 characters is not a
"recognized shape containing an 11-character id", so under the claim it should
be classified as a web page (`None`); the code instead captures the first 11
characters of the run. -/
theorem c2_counterexample :
    is_youtube_url "https://www.youtube.com/watch?v=abcdefghijkl".toList =
        some "abcdefghijk".toList ∧
      is_youtube_url "https://www.youtube.com/watch?v=abcdefghijkl".toList ≠ none := by
  have h1 : is_youtube_url "https://www.youtube.com/watch?v=abcdefghijkl".toList =
      some "abcdefghijk".toList := by decide
  exact ⟨h1, by rw [h1]; exact Option.some_ne_none _⟩

/-- Witness for C9 at a concrete URL. -/
theorem c9_video_id_shape_witness :
    ("dQw4w9WgXcQ".toList).length = 11 ∧
      ∀ c ∈ "dQw4w9WgXcQ".toList, idChar c = true :=
  c9_video_id_shape "https://youtu.be/dQw4w9WgXcQ".toList "dQw4w9WgXcQ".toList
    (by decide)

/-! ## Text normalization, capping (`web_content.py`, `youtube.py`, `llm.py`) -/

/-- Whitespace characters recognized by Python `str.split()` (ASCII range). -/
def isPySpace (c : Char) : Bool :=
  c == ' ' || c == '\t' || c == '\n' || c == '\r' || c == '\x0B' || c == '\x0C'

def splitWordsAux : List Char → List Char → List (List Char)
  | [], acc => if acc = [] then [] else [acc.reverse]
  | c :: rest, acc =>
      if isPySpace c then
        if acc = [] then splitWordsAux rest [] else acc.reverse :: splitWordsAux rest []
      else splitWordsAux rest (c :: acc)

/-- Python `s.split()`: the maximal runs of non-whitespace characters. -/
def splitWords (s : List Char) : List (List Char) := splitWordsAux s []

/-- Python `' '.join(words)`. -/
def joinSpace : List (List Char) → List Char
  | [] => []
  | [w] => w
  | w :: ws => w ++ ' ' :: joinSpace ws

/-- Python `' '.join(text.split())`: collapse whitespace runs to single spaces. -/
def normalizeWS (s : List Char) : List Char := joinSpace (splitWords s)

/-- Python `text[:maxChars] + marker` when `len(text) > maxChars`, else `text` —
the shared shape of the three size caps. -/
def capText (maxChars : Nat) (marker : List Char) (text : List Char) : List Char :=
  if maxChars < text.length then text.take maxChars ++ marker else text

/-- Constant `MAX_CHARS` in `web_content.py`. -/
def MAX_CHARS : Nat := 100000

/-- Constant `MAX_TRANSCRIPT_CHARS` in `youtube.py`. -/
def MAX_TRANSCRIPT_CHARS : Nat := 75000

/-- Constant `MAX_CONTENT_LENGTH` in `llm.py`. -/
def MAX_CONTENT_LENGTH : Nat := 80000

/-- Truncation marker of `web_content.py` and `llm.py`. -/
def contentTruncMarker : List Char := "... [Content truncated due to size]".toList

/-- Truncation marker of `youtube.py`. -/
def transcriptTruncMarker : List Char := "... [Transcript truncated due to size]".toList

/-- Python `needle in hay` substring test. -/
def containsSub (needle : List Char) : List Char → Bool
  | [] => litMatch needle []
  | c :: rest => litMatch needle (c :: rest) || containsSub needle rest

/-! ## Web fetcher (`web_content.py`, `fetch_page_content`) -/

/-- Outcome of the HTTP GET and HTML parse, up to the pure text processing:
a raised requests exception or non-2xx status; or a response with its
Content-Type header and the text that `body.get_text(separator=' ',
strip=True)` extracts (`none` when the document has no body tag). -/
inductive HttpOutcome where
  | requestFailed
  | response (contentType : List Char) (bodyText : Option (List Char))

/-- Embedding of the decision logic of `fetch_page_content(url)`: fail on request error,
non-HTML content type, or missing body; otherwise whitespace-normalize the
body text and cap it at `MAX_CHARS`.  Note: there is no emptiness check. -/
def fetch_page_content (o : HttpOutcome) : Option (List Char) :=
  match o with
  | .requestFailed => none
  | .response ct body =>
      if containsSub "text/html".toList (ct.map Char.toLower) then
        match body with
        | none => none
        | some raw => some (capText MAX_CHARS contentTruncMarker (normalizeWS raw))
      else none

/-! ## Transcript fetcher (`youtube.py`, `fetch_youtube_transcript`) -/

/-- A raw transcript segment as produced by `transcript.fetch()`: a mapping
(whose `text` field may be missing — `item.get('text', '')`), an object with a
`text` attribute, or an unrecognized shape (skipped with a warning). -/
inductive Segment where
  | dict (text : Option (List Char))
  | objWithText (text : List Char)
  | unrecognized
deriving DecidableEq

/-- The texts collected from the segments, in order. -/
def segmentTexts : List Segment → List (List Char)
  | [] => []
  | .dict t :: rest => t.getD [] :: segmentTexts rest
  | .objWithText t :: rest => t :: segmentTexts rest
  | .unrecognized :: rest => segmentTexts rest

/-- One entry of the transcript list: language code, whether it is
auto-generated, and the segments its `fetch()` returns. -/
structure Transcript where
  language : List Char
  generated : Bool
  segments : List Segment
deriving DecidableEq

/-- The transcript-source capability `find_manually_created_transcript` /
`find_generated_transcript`: language codes are tried in the given priority
order; `none` models the `NoTranscriptFound` exception. -/
def findTranscriptByLang (generated : Bool) (langs : List (List Char))
    (ts : List Transcript) : Option Transcript :=
  match langs with
  | [] => none
  | lg :: rest =>
      match ts.find? (fun t => t.generated == generated && t.language == lg) with
      | some t => some t
      | none => findTranscriptByLang generated rest ts

/-- Constant `preferred_languages` in `youtube.py`. -/
def preferred_languages : List (List Char) := ["en".toList, "en-US".toList, "en-GB".toList]

/-- The selection cascade of `fetch_youtube_transcript`: manual transcript in
a preferred language, else generated in a preferred language, else
`list(transcript_list)[0]` (whose `IndexError` on an empty list is `none`). -/
def selectTranscript (ts : List Transcript) : Option Transcript :=
  match findTranscriptByLang false preferred_languages ts with
  | some t => some t
  | none =>
      match findTranscriptByLang true preferred_languages ts with
      | some t => some t
      | none => ts.head?

/-- Formatting of the fetched segments: `" ".join(texts)` then
`' '.join(full_transcript.split())`. -/
def formatTranscript (segs : List Segment) : List Char :=
  normalizeWS (joinSpace (segmentTexts segs))

/-- The tail of `fetch_youtube_transcript` for the selected transcript: format,
cap at `MAX_TRANSCRIPT_CHARS`, and fail if the result is empty. -/
def transcriptText (t : Transcript) : Option (List Char) :=
  let full := capText MAX_TRANSCRIPT_CHARS transcriptTruncMarker (formatTranscript t.segments)
  if full = [] then none else some full

/-- Outcome of `YouTubeTranscriptApi.list_transcripts`: the
`TranscriptsDisabled` exception, any other exception (re-raised, then caught
by the outer handler), the 60-second alarm firing, or the transcript list. -/
inductive TranscriptApiOutcome where
  | disabled
  | listFailed
  | timedOut
  | ok (ts : List Transcript)

/-- Embedding of `fetch_youtube_transcript(video_id)`: every exception path returns `None`;
on a listed transcript list, run the selection cascade and format the result. -/
def fetch_youtube_transcript (o : TranscriptApiOutcome) : Option (List Char) :=
  match o with
  | .disabled => none
  | .listFailed => none
  | .timedOut => none
  | .ok ts =>
      match selectTranscript ts with
      | none => none
      | some t => transcriptText t

/-! ## Summarization engine and title generator (`llm.py`) -/

/-- Outcome of the `generate_content` call raced against the timeout. -/
inductive LlmResponse where
  | timedOut
  | deadlineExceeded
  | apiError
  | emptyOrBlocked
  | candidateText (raw : List Char)

/-- Python `s.strip(chars)` for a character class: drop from both ends. -/
def stripEnds (p : Char → Bool) (s : List Char) : List Char :=
  ((s.dropWhile p).reverse.dropWhile p).reverse

/-- The quote characters stripped from a generated title (`strip('"\x27')`). -/
def isQuoteChar (c : Char) : Bool := c == '"' || c == '\''

/-- The content interpolated into the summarization prompt: the fetched
content capped at `MAX_CONTENT_LENGTH` with the truncation marker. -/
def llmPromptContent (content : List Char) : List Char :=
  capText MAX_CONTENT_LENGTH contentTruncMarker content

/-- Embedding of `get_summary_from_llm(content, source_url, is_youtube)`: fail when the
client is unconfigured, the content empty, or the call fails/times out/has no
candidate text; otherwise the candidate's text, whitespace-stripped.  (The
prompt interpolates `llmPromptContent content`; the response is external.) -/
def get_summary_from_llm (clientReady : Bool) (content : List Char)
    (resp : LlmResponse) : Option (List Char) :=
  if !clientReady then none
  else if content = [] then none
  else
    match resp with
    | .candidateText raw => some (stripEnds isPySpace raw)
    | _ => none

/-- The title post-processing of `get_short_title_from_llm`: strip whitespace,
strip surrounding quotes, and hard-truncate to the first 10 words plus an
ellipsis when more than 12 words remain. -/
def cleanTitle (raw : List Char) : List Char :=
  let title := stripEnds isQuoteChar (stripEnds isPySpace raw)
  if 12 < (splitWords title).length then
    joinSpace ((splitWords title).take 10) ++ "...".toList
  else title

/-- Embedding of `get_short_title_from_llm(summary_text)`. -/
def get_short_title_from_llm (clientReady : Bool) (summary_text : List Char)
    (resp : LlmResponse) : Option (List Char) :=
  if !clientReady then none
  else if summary_text = [] then none
  else
    match resp with
    | .candidateText raw => some (cleanTitle raw)
    | _ => none

/-! ## Theorems: caps, titles, emptiness -/

/-- C6: for each capping operation — web page text at `MAX_CHARS = 100000`,
transcript at `MAX_TRANSCRIPT_CHARS = 75000`, LLM input at
`MAX_CONTENT_LENGTH = 80000` — input of length exactly the cap passes through
unmodified, and input one character longer is truncated to the cap length with
the truncation marker appended. -/
theorem c6_truncation_boundaries (t : List Char) :
    (t.length = MAX_CHARS → capText MAX_CHARS contentTruncMarker t = t) ∧
    (t.length = MAX_CHARS + 1 →
      capText MAX_CHARS contentTruncMarker t = t.take MAX_CHARS ++ contentTruncMarker) ∧
    (t.length = MAX_TRANSCRIPT_CHARS →
      capText MAX_TRANSCRIPT_CHARS transcriptTruncMarker t = t) ∧
    (t.length = MAX_TRANSCRIPT_CHARS + 1 →
      capText MAX_TRANSCRIPT_CHARS transcriptTruncMarker t =
        t.take MAX_TRANSCRIPT_CHARS ++ transcriptTruncMarker) ∧
    (t.length = MAX_CONTENT_LENGTH → llmPromptContent t = t) ∧
    (t.length = MAX_CONTENT_LENGTH + 1 →
      llmPromptContent t = t.take MAX_CONTENT_LENGTH ++ contentTruncMarker) := by
  refine ⟨?_, ?_, ?_, ?_, ?_, ?_⟩ <;> intro h <;>
    simp only [llmPromptContent, capText] <;>
    first
      | rw [if_neg (by omega)]
      | rw [if_pos (by omega)]

/-- Witness for C6 at concrete inputs of the boundary lengths. -/
theorem c6_truncation_boundaries_witness :
    capText MAX_CHARS contentTruncMarker (List.replicate MAX_CHARS 'a') =
        List.replicate MAX_CHARS 'a' ∧
      capText MAX_CHARS contentTruncMarker (List.replicate (MAX_CHARS + 1) 'a') =
        (List.replicate (MAX_CHARS + 1) 'a').take MAX_CHARS ++ contentTruncMarker ∧
      capText MAX_TRANSCRIPT_CHARS transcriptTruncMarker
          (List.replicate MAX_TRANSCRIPT_CHARS 'a') =
        List.replicate MAX_TRANSCRIPT_CHARS 'a' ∧
      capText MAX_TRANSCRIPT_CHARS transcriptTruncMarker
          (List.replicate (MAX_TRANSCRIPT_CHARS + 1) 'a') =
        (List.replicate (MAX_TRANSCRIPT_CHARS + 1) 'a').take MAX_TRANSCRIPT_CHARS ++
          transcriptTruncMarker ∧
      llmPromptContent (List.replicate MAX_CONTENT_LENGTH 'a') =
        List.replicate MAX_CONTENT_LENGTH 'a' ∧
      llmPromptContent (List.replicate (MAX_CONTENT_LENGTH + 1) 'a') =
        (List.replicate (MAX_CONTENT_LENGTH + 1) 'a').take MAX_CONTENT_LENGTH ++
          contentTruncMarker :=
  ⟨(c6_truncation_boundaries _).1 (by simp),
    (c6_truncation_boundaries _).2.1 (by simp),
    (c6_truncation_boundaries _).2.2.1 (by simp),
    (c6_truncation_boundaries _).2.2.2.1 (by simp),
    (c6_truncation_boundaries _).2.2.2.2.1 (by simp),
    (c6_truncation_boundaries _).2.2.2.2.2 (by simp)⟩

/-- C7: in the title sub-operation, once whitespace and surrounding quotes are
stripped, a 12-word title is returned verbatim, while a title of 13 or more
words is truncated to its first 10 words with an ellipsis appended. -/
theorem c7_title_word_boundary (s raw : List Char) (hs : s ≠ []) :
    ((splitWords (stripEnds isQuoteChar (stripEnds isPySpace raw))).length = 12 →
      get_short_title_from_llm true s (.candidateText raw) =
        some (stripEnds isQuoteChar (stripEnds isPySpace raw))) ∧
    (13 ≤ (splitWords (stripEnds isQuoteChar (stripEnds isPySpace raw))).length →
      get_short_title_from_llm true s (.candidateText raw) =
        some (joinSpace
          ((splitWords (stripEnds isQuoteChar (stripEnds isPySpace raw))).take 10) ++
            "...".toList)) := by
  constructor <;> intro h <;>
    simp only [get_short_title_from_llm, Bool.not_true, if_neg hs, cleanTitle] <;>
    simp [h]
  omega

/-- Witness for C7 at concrete 12-word and 13-word titles. -/
theorem c7_title_word_boundary_witness :
    get_short_title_from_llm true "x".toList
        (.candidateText "a b c d e f g h i j k l".toList) =
      some (stripEnds isQuoteChar (stripEnds isPySpace "a b c d e f g h i j k l".toList)) ∧
    get_short_title_from_llm true "x".toList
        (.candidateText "a b c d e f g h i j k l m".toList) =
      some (joinSpace
        ((splitWords (stripEnds isQuoteChar
          (stripEnds isPySpace "a b c d e f g h i j k l m".toList))).take 10) ++
          "...".toList) :=
  ⟨(c7_title_word_boundary "x".toList _ (by decide)).1 (by decide),
    (c7_title_word_boundary "x".toList _ (by decide)).2 (by decide)⟩

theorem transcript_result_nonempty (o : TranscriptApiOutcome) (s : List Char)
    (h : fetch_youtube_transcript o = some s) : s ≠ [] := by
  match o with
  | .disabled => simp [fetch_youtube_transcript] at h
  | .listFailed => simp [fetch_youtube_transcript] at h
  | .timedOut => simp [fetch_youtube_transcript] at h
  | .ok ts =>
      simp only [fetch_youtube_transcript] at h
      cases hsel : selectTranscript ts with
      | none => rw [hsel] at h; cases h
      | some t =>
          rw [hsel] at h
          unfold transcriptText at h
          by_cases hfull :
              capText MAX_TRANSCRIPT_CHARS transcriptTruncMarker
                (formatTranscript t.segments) = []
          · simp [hfull] at h
          · simp only [if_neg hfull] at h
            cases h
            exact hfull

/-- C3 (amended): the transcript fetcher never succeeds with an empty payload —
an empty formatted transcript is a failure.  (The unamended claim also covered
`fetch_page_content`, which has no such check: see the counterexample, where an
empty body text yields success with the empty string.) -/
theorem c3_fetch_success_nonempty (o : TranscriptApiOutcome) (s : List Char)
    (h : fetch_youtube_transcript o = some s) : s ≠ [] :=
  transcript_result_nonempty o s h

/-- Witness for C3 at a concrete transcript list. -/
theorem c3_fetch_success_nonempty_witness :
    "hello world".toList ≠ ([] : List Char) :=
  c3_fetch_success_nonempty
    (.ok [⟨"en".toList, false, [.objWithText "hello world".toList]⟩])
    "hello world".toList (by decide)

/-- C3 counterexample: a successful HTTP response whose body tag carries no
text makes `fetch_page_content` succeed with the empty string instead of
reporting a fetch failure. -/
theorem c3_counterexample :
    fetch_page_content (.response "text/html".toList (some [])) = some [] ∧
      fetch_page_content (.response "text/html".toList (some [])) ≠ none := by
  constructor
  · rfl
  · intro h
    exact Option.some_ne_none ([] : List Char) (by rw [← h]; rfl)

/-- C8: the transcript selection policy — a manually created transcript in the
preferred-language set wins; otherwise a generated one in that set; otherwise
the first listed transcript; an empty list, disabled transcripts, or a failed
listing produce a failure, and no success carries empty content. -/
theorem c8_transcript_selection_policy :
    (∀ ts t, findTranscriptByLang false preferred_languages ts = some t →
        fetch_youtube_transcript (.ok ts) = transcriptText t) ∧
    (∀ ts t, findTranscriptByLang false preferred_languages ts = none →
        findTranscriptByLang true preferred_languages ts = some t →
        fetch_youtube_transcript (.ok ts) = transcriptText t) ∧
    (∀ t rest, findTranscriptByLang false preferred_languages (t :: rest) = none →
        findTranscriptByLang true preferred_languages (t :: rest) = none →
        fetch_youtube_transcript (.ok (t :: rest)) = transcriptText t) ∧
    fetch_youtube_transcript (.ok []) = none ∧
    fetch_youtube_transcript .disabled = none ∧
    fetch_youtube_transcript .listFailed = none ∧
    (∀ o s, fetch_youtube_transcript o = some s → s ≠ []) := by
  refine ⟨?_, ?_, ?_, rfl, rfl, rfl, transcript_result_nonempty⟩
  · intro ts t h
    simp [fetch_youtube_transcript, selectTranscript, h]
  · intro ts t h1 h2
    simp [fetch_youtube_transcript, selectTranscript, h1, h2]
  · intro t rest h1 h2
    simp [fetch_youtube_transcript, selectTranscript, h1, h2]

/-- Witness for C8: a list with one manual English transcript. -/
theorem c8_transcript_selection_policy_witness :
    fetch_youtube_transcript
        (.ok [⟨"en".toList, false, [.objWithText "hello world".toList]⟩]) =
      transcriptText ⟨"en".toList, false, [.objWithText "hello world".toList]⟩ :=
  c8_transcript_selection_policy.1
    [⟨"en".toList, false, [.objWithText "hello world".toList]⟩]
    ⟨"en".toList, false, [.objWithText "hello world".toList]⟩ (by decide)

/-! ## URL validation (`web_content.py`, `is_valid_url`) -/

/-- Characters admissible in a URI scheme after the first (per `urlparse`). -/
def schemeChar (c : Char) : Bool :=
  c.isAlpha || c.isDigit || c == '+' || c == '-' || c == '.'

/-- Split at the first colon: the candidate scheme and the remainder. -/
def splitAtColon : List Char → Option (List Char × List Char)
  | [] => none
  | c :: rest =>
      if c = ':' then some ([], rest)
      else (splitAtColon rest).map (fun p => (c :: p.1, p.2))

/-- Model of the netloc of `urlparse`: present only after `//`, up to `/`, `?` or `#`. -/
def netlocOf (rest : List Char) : Option (List Char) :=
  match rest with
  | '/' :: '/' :: tail =>
      some (tail.takeWhile (fun c => !(c == '/' || c == '?' || c == '#')))
  | _ => none

/-- Embedding of `is_valid_url(url_string)`: the parsed scheme (lowercased) must be http or
https and the network location non-empty. -/
def is_valid_url (url : List Char) : Bool :=
  match splitAtColon url with
  | none => false
  | some (schemePart, rest) =>
      match schemePart with
      | [] => false
      | c0 :: cs =>
          if c0.isAlpha && (c0 :: cs).all schemeChar then
            ((c0 :: cs).map Char.toLower == "http".toList ||
                (c0 :: cs).map Char.toLower == "https".toList) &&
              (match netlocOf rest with
               | some nl => !(nl == [])
               | none => false)
          else false

/-! ## Route handlers (`routes.py`) -/

/-- A JSON response body of `summarize_ajax`. -/
inductive RouteBody where
  | success (redirect_url : List Char)
  | error (message : List Char)
deriving DecidableEq

/-- The request as `summarize_ajax` observes it: whether the body is JSON, and
the value of its `url` field. -/
structure AjaxRequest where
  isJson : Bool
  url : Option (List Char)

/-- The external collaborators of one `summarize_ajax` request: the transcript
API outcome, the HTTP fetch outcome, the LLM client state and call outcome,
the `markdown.markdown` renderer, and whether writing the temp file succeeds. -/
structure DownstreamWorld where
  transcriptApi : TranscriptApiOutcome
  http : HttpOutcome
  llmClient : Bool
  llmCall : LlmResponse
  render : List Char → List Char
  storeOk : Bool

def msgInvalidFormat : List Char := "Invalid request format. Expected JSON.".toList

def msgNoUrl : List Char := "No URL provided.".toList

def msgInvalidUrl : List Char :=
  "Invalid URL format. Please include http:// or https://".toList

def msgTranscriptFail : List Char :=
  "Could not fetch transcript. Transcripts might be disabled or unavailable.".toList

def msgPageFail : List Char :=
  "Could not fetch or process content. Site might be inaccessible or blocking requests.".toList

def msgLlmFail : List Char :=
  "Failed to generate summary. LLM might be unavailable or had an issue.".toList

def msgStoreFail : List Char := "Server error: Failed to store summary data.".toList

def showSummaryPath : List Char := "/show_summary".toList

/-- The tail of `summarize_ajax` after a successful fetch: summarize, render
the markdown to HTML, store, put the id in the session, and answer with the
redirect; LLM failure and storage failure are 500s.  The result is
`((body, httpStatus), tempDir, session summary_id)`. -/
def summarizeAndStore (u content : List Char) (w : DownstreamWorld)
    (freshId : List Char) (dir : TempDir) :
    (RouteBody × Nat) × TempDir × Option (List Char) :=
  match get_summary_from_llm w.llmClient content w.llmCall with
  | none => ((.error msgLlmFail, 500), dir, none)
  | some summary =>
      if w.storeOk then
        ((.success showSummaryPath, 200),
          (store_summary_data ⟨u, w.render summary, summary⟩ freshId dir).2,
          some (store_summary_data ⟨u, w.render summary, summary⟩ freshId dir).1)
      else ((.error msgStoreFail, 500), dir, none)

/-- Embedding of `summarize_ajax()`: validation failures are 400s; a failed transcript or
page fetch is a 400; summarization and storage failures are 500s; success is a
200 carrying the redirect location. -/
def summarize_ajax (req : AjaxRequest) (w : DownstreamWorld) (freshId : List Char)
    (dir : TempDir) : (RouteBody × Nat) × TempDir × Option (List Char) :=
  if !req.isJson then ((.error msgInvalidFormat, 400), dir, none)
  else
    match req.url with
    | none => ((.error msgNoUrl, 400), dir, none)
    | some u =>
        if u = [] then ((.error msgNoUrl, 400), dir, none)
        else if !is_valid_url u then ((.error msgInvalidUrl, 400), dir, none)
        else
          match is_youtube_url u with
          | some _ =>
              match fetch_youtube_transcript w.transcriptApi with
              | none => ((.error msgTranscriptFail, 400), dir, none)
              | some content => summarizeAndStore u content w freshId dir
          | none =>
              match fetch_page_content w.http with
              | none => ((.error msgPageFail, 400), dir, none)
              | some content => summarizeAndStore u content w freshId dir

/-- Result of a `show_summary` request. -/
inductive ShowOutcome where
  | redirectNoData
  | redirectRetrieveFailed
  | rendered (original_url summary_html summary_markdown : List Char)
deriving DecidableEq

/-- Embedding of `show_summary()`: `session.pop('summary_id', None)` consumes the session
reference before anything else; a missing id or a failed retrieval redirect to
the index; otherwise the stored data is rendered.  Result: outcome, session
`summary_id` after the request, temp directory after the request. -/
def show_summary (sess : Option (List Char)) (dir : TempDir) :
    Except PyError (ShowOutcome × Option (List Char) × TempDir) :=
  match sess with
  | none => .ok (.redirectNoData, none, dir)
  | some sid =>
      if sid = [] then .ok (.redirectNoData, none, dir)
      else
        match retrieve_summary_data sid dir with
        | (.error e, _) => .error e
        | (.ok none, dir2) => .ok (.redirectRetrieveFailed, none, dir2)
        | (.ok (some d), dir2) =>
            .ok (.rendered d.original_url d.summary_html d.summary_markdown, none, dir2)

/-! ## Theorems: route contracts -/

/-- C4 (amended): every response of the summarize endpoint is either
`(success, redirect_url)` with 200 or `(error, message)`; HTTP 400 is returned
for validation failures (non-JSON body, missing or empty url, invalid URL)
AND for fetch failures (transcript or page); HTTP 500 is returned for
summarization and storage failures.  (The unamended claim put fetch failures
under 500; see the counterexample.) -/
theorem c4_route_statuses (req : AjaxRequest) (w : DownstreamWorld)
    (freshId : List Char) (dir : TempDir) :
    (req.isJson = false →
      summarize_ajax req w freshId dir = ((.error msgInvalidFormat, 400), dir, none)) ∧
    (req.isJson = true → req.url = none →
      summarize_ajax req w freshId dir = ((.error msgNoUrl, 400), dir, none)) ∧
    (req.isJson = true → req.url = some [] →
      summarize_ajax req w freshId dir = ((.error msgNoUrl, 400), dir, none)) ∧
    (∀ u, req.isJson = true → req.url = some u → u ≠ [] → is_valid_url u = false →
      summarize_ajax req w freshId dir = ((.error msgInvalidUrl, 400), dir, none)) ∧
    (∀ u vid, req.isJson = true → req.url = some u → u ≠ [] → is_valid_url u = true →
      is_youtube_url u = some vid → fetch_youtube_transcript w.transcriptApi = none →
      summarize_ajax req w freshId dir = ((.error msgTranscriptFail, 400), dir, none)) ∧
    (∀ u, req.isJson = true → req.url = some u → u ≠ [] → is_valid_url u = true →
      is_youtube_url u = none → fetch_page_content w.http = none →
      summarize_ajax req w freshId dir = ((.error msgPageFail, 400), dir, none)) ∧
    (∀ u vid content, req.isJson = true → req.url = some u → u ≠ [] →
      is_valid_url u = true → is_youtube_url u = some vid →
      fetch_youtube_transcript w.transcriptApi = some content →
      summarize_ajax req w freshId dir = summarizeAndStore u content w freshId dir) ∧
    (∀ u content, req.isJson = true → req.url = some u → u ≠ [] →
      is_valid_url u = true → is_youtube_url u = none →
      fetch_page_content w.http = some content →
      summarize_ajax req w freshId dir = summarizeAndStore u content w freshId dir) ∧
    (∀ u content, get_summary_from_llm w.llmClient content w.llmCall = none →
      summarizeAndStore u content w freshId dir = ((.error msgLlmFail, 500), dir, none)) ∧
    (∀ u content summary, get_summary_from_llm w.llmClient content w.llmCall = some summary →
      w.storeOk = false →
      summarizeAndStore u content w freshId dir = ((.error msgStoreFail, 500), dir, none)) ∧
    (∀ u content summary, get_summary_from_llm w.llmClient content w.llmCall = some summary →
      w.storeOk = true →
      summarizeAndStore u content w freshId dir =
        ((.success showSummaryPath, 200),
          (store_summary_data ⟨u, w.render summary, summary⟩ freshId dir).2,
          some freshId)) := by
  refine ⟨?_, ?_, ?_, ?_, ?_, ?_, ?_, ?_, ?_, ?_, ?_⟩
  · intro h
    simp [summarize_ajax, h]
  · intro h hu
    simp [summarize_ajax, h, hu]
  · intro h hu
    simp [summarize_ajax, h, hu]
  · intro u h hu hne hv
    simp [summarize_ajax, h, hu, hne, hv]
  · intro u vid h hu hne hv hyt hf
    simp [summarize_ajax, h, hu, hne, hv, hyt, hf]
  · intro u h hu hne hv hyt hf
    simp [summarize_ajax, h, hu, hne, hv, hyt, hf]
  · intro u vid content h hu hne hv hyt hf
    simp [summarize_ajax, h, hu, hne, hv, hyt, hf]
  · intro u content h hu hne hv hyt hf
    simp [summarize_ajax, h, hu, hne, hv, hyt, hf]
  · intro u content h
    simp [summarizeAndStore, h]
  · intro u content summary h hs
    simp [summarizeAndStore, h, hs]
  · intro u content summary h hs
    simp [summarizeAndStore, h, hs, store_summary_data]

/-- Witness for C4: a valid YouTube request whose transcript fetch fails
yields the 400 error response. -/
theorem c4_route_statuses_witness :
    summarize_ajax ⟨true, some "https://youtu.be/dQw4w9WgXcQ".toList⟩
        ⟨.disabled, .requestFailed, true, .timedOut, fun s => s, true⟩
        "f".toList [] = ((.error msgTranscriptFail, 400), [], none) :=
  (c4_route_statuses ⟨true, some "https://youtu.be/dQw4w9WgXcQ".toList⟩
      ⟨.disabled, .requestFailed, true, .timedOut, fun s => s, true⟩
      "f".toList []).2.2.2.2.1 "https://youtu.be/dQw4w9WgXcQ".toList
    "dQw4w9WgXcQ".toList rfl rfl (by decide) (by decide) (by decide) rfl

/-- C4 counterexample: the claim assigns HTTP 500 to every downstream failure
including fetch failures, but a failed transcript fetch on a valid YouTube URL
is answered with HTTP 400. -/
theorem c4_counterexample :
    (summarize_ajax ⟨true, some "https://youtu.be/dQw4w9WgXcQ".toList⟩
        ⟨.disabled, .requestFailed, true, .timedOut, fun s => s, true⟩
        "f".toList []).1.2 = 400 ∧ (400 : Nat) ≠ 500 := by
  constructor
  · rfl
  · decide

/-- C10: `show_summary` pops the summary id from the session before retrieval,
so the session reference is consumed by exactly one request: every completed
request leaves no id in the session; with no id the request redirects to the
index without touching the store; and when retrieval fails the id is consumed
all the same. -/
theorem c10_session_id_consumed (dir : TempDir) :
    (∀ sid out sess2 dir2,
      show_summary (some sid) dir = .ok (out, sess2, dir2) → sess2 = none) ∧
    (show_summary none dir = .ok (.redirectNoData, none, dir)) ∧
    (∀ sid, sid ≠ [] → fileLookup sid dir = none →
      show_summary (some sid) dir = .ok (.redirectRetrieveFailed, none, dir)) := by
  refine ⟨?_, rfl, ?_⟩
  · intro sid out sess2 dir2 h
    simp only [show_summary] at h
    by_cases he : sid = []
    · simp [he] at h
      exact h.2.1.symm
    · rw [if_neg he] at h
      rcases hr : retrieve_summary_data sid dir with ⟨res, dir3⟩
      rw [hr] at h
      match res with
      | .error e => cases h
      | .ok none => cases h; rfl
      | .ok (some d) => cases h; rfl
  · intro sid hne hlk
    simp only [show_summary]
    rw [if_neg hne]
    simp only [retrieve_summary_data]
    rw [hlk]

/-- Witness for C10: an id absent from the store is still consumed. -/
theorem c10_session_id_consumed_witness :
    show_summary (some ('t' :: [])) [] = .ok (.redirectRetrieveFailed, none, []) :=
  (c10_session_id_consumed []).2.2 ('t' :: []) (by decide) rfl

end WebSummarizer
